import Mathlib

/-!
Shallow embedding of the PothosComms energy detector.

This file embeds the EnergyDetector block of src/utility/EnergyDetector.cpp
(PothosComms repository).  The C++ class template EnergyDetector keeps a
small amount of runtime state (the members named activeState,
samplesInState, currentSignalEnvelope, currentNoiseEnvelope) and processes
its input stream in work() one decision sample at a time.

Modelling choices:

* RealType values (envelopes, gains, threshold factors) are embedded as ℚ,
  so the comparisons and the single-pole filter updates are exact.  The C++
  member oneMinusSignalGain is assigned 1 - signalGain by setSignalAverage
  (and likewise for the noise gain), so the embedding writes 1 - signalGain
  inline.
* The input buffer is a total function Nat → ℚ giving the sample values at
  each offset from the current read position; the magnitude std::abs of a
  real sample is abs.
* A call to work() is a pure function from the configuration, the runtime
  state, the input buffer, the number of buffered input elements and the
  number of available output elements to a WorkResult recording the updated
  runtime state and the externally visible effects: elements consumed,
  length of the posted output buffer (if any), posted labels, and the
  reservation request (if any).  The field called evaluated additionally
  records how many decision samples the state machine evaluated during the
  call.
-/

namespace EnergyDetector

/-- Configuration of the detector: the fields of the C++ class that work()
and setForwardMode read.  activationFactor and deactivationFactor are the
linear threshold ratios derived from the dB levels; signalGain and noiseGain
are the decay gains derived from the averaging time constants. -/
structure Config where
  dropInactiveSamples : Bool
  forwardMode : String
  activationFactor : ℚ
  deactivationFactor : ℚ
  activationMinimum : Nat
  activationMaximum : Nat
  deactivationMinimum : Nat
  deactivationMaximum : Nat
  signalGain : ℚ
  noiseGain : ℚ
  lookahead : Nat
  activationId : String
  deactivationId : String
deriving Repr, DecidableEq

/-- Runtime state of the detector: the members named activeState,
samplesInState, currentSignalEnvelope, currentNoiseEnvelope. -/
structure DetState where
  activeState : Bool
  samplesInState : Nat
  currentSignalEnvelope : ℚ
  currentNoiseEnvelope : ℚ
deriving Repr, DecidableEq

/-- The state installed by activate() (lines 304-311): inactive, zero
counter, zero envelopes. -/
def initState : DetState :=
  { activeState := false
    samplesInState := 0
    currentSignalEnvelope := 0
    currentNoiseEnvelope := 0 }

/-- One iteration of the per-sample loop body of work() on the decision
sample magnitude xn (lines 351-374 for the active branch, lines 379-396 for
the inactive branch).  The counter is incremented first, then the signal
envelope is updated (and, in the inactive branch, the noise envelope), then
the transition condition is evaluated on the updated values.  Returns the
updated runtime state together with true iff this sample triggered a state
transition (the C++ break). -/
def step (c : Config) (s : DetState) (xn : ℚ) : DetState × Bool :=
  if s.activeState then
    if (s.samplesInState + 1 > c.activationMinimum ∧
          c.signalGain * s.currentSignalEnvelope + (1 - c.signalGain) * xn <
            s.currentNoiseEnvelope * c.deactivationFactor) ∨
       (c.activationMaximum ≠ 0 ∧ s.samplesInState + 1 > c.activationMaximum) then
      (⟨false, 0,
        c.signalGain * s.currentSignalEnvelope + (1 - c.signalGain) * xn,
        s.currentNoiseEnvelope⟩, true)
    else
      (⟨true, s.samplesInState + 1,
        c.signalGain * s.currentSignalEnvelope + (1 - c.signalGain) * xn,
        s.currentNoiseEnvelope⟩, false)
  else
    if (s.samplesInState + 1 > c.deactivationMinimum ∧
          c.signalGain * s.currentSignalEnvelope + (1 - c.signalGain) * xn >
            (c.noiseGain * s.currentNoiseEnvelope + (1 - c.noiseGain) * xn) *
              c.activationFactor) ∨
       (c.deactivationMaximum ≠ 0 ∧ s.samplesInState + 1 > c.deactivationMaximum) then
      (⟨true, 0,
        c.signalGain * s.currentSignalEnvelope + (1 - c.signalGain) * xn,
        c.noiseGain * s.currentNoiseEnvelope + (1 - c.noiseGain) * xn⟩, true)
    else
      (⟨false, s.samplesInState + 1,
        c.signalGain * s.currentSignalEnvelope + (1 - c.signalGain) * xn,
        c.noiseGain * s.currentNoiseEnvelope + (1 - c.noiseGain) * xn⟩, false)

/-- Result of the scanning loop of work(): the final runtime state, the
value i of the C++ loop counter after the loop (the break index on a
transition, N when the loop exhausted), whether a transition occurred, and
the number of decision samples evaluated. -/
structure LoopResult where
  state : DetState
  i : Nat
  trans : Bool
  evaluated : Nat
deriving Repr, DecidableEq

/-- The scanning loop of work() (the C++ for loop over i from 0 to N-1 with
a break on transition), starting at loop counter i with rem iterations left;
the decision sample for counter value i is the input element at offset
i + lookahead (lines 354 and 382). -/
def runLoop (c : Config) (inp : Nat → ℚ) : DetState → Nat → Nat → LoopResult
  | s, i, 0 => ⟨s, i, false, 0⟩
  | s, i, rem + 1 =>
    let r := step c s (abs (inp (i + c.lookahead)))
    if r.2 then ⟨r.1, i, true, 1⟩
    else
      let rest := runLoop c inp r.1 (i + 1) rem
      ⟨rest.state, rest.i, rest.trans, rest.evaluated + 1⟩

/-- The externally visible outcome of one work() call.  produced = some n
means a buffer of n elements was posted to the output port; labels lists the
posted labels as (id, element offset) pairs in posting order;
reserve = some n means setReserve(n) was called on the input port; the field
called evaluated counts the decision samples evaluated by the state
machine. -/
structure WorkResult where
  state : DetState
  consumed : Nat
  produced : Option Nat
  labels : List (String × Nat)
  reserve : Option Nat
  evaluated : Nat
deriving Repr, DecidableEq

/-- The work() method (lines 313-410).  The argument elements is the number
of buffered input elements, outElements the number of available output
elements.  The activation label is posted before the loop on the first
active sample of the state (line 346-349), the deactivation label inside the
loop at the break index (lines 366-369), the input is consumed at i + 1
elements (line 401), and the consumed span is forwarded when the entry state
was active or inactive samples are not dropped (lines 404-409). -/
def work (c : Config) (s : DetState) (inp : Nat → ℚ)
    (elements outElements : Nat) : WorkResult :=
  if elements ≤ c.lookahead then
    ⟨s, 0, none, [], some (c.lookahead + 1), 0⟩
  else
    let N := min (elements - c.lookahead) outElements
    if N = 0 then ⟨s, 0, none, [], none, 0⟩
    else
      let entryState := s.activeState
      let actLabels : List (String × Nat) :=
        if s.activeState = true ∧ s.samplesInState = 0 ∧ c.activationId ≠ "" then
          [(c.activationId, 0)]
        else []
      let r := runLoop c inp s 0 N
      let deactLabels : List (String × Nat) :=
        if entryState = true ∧ r.trans = true ∧ c.deactivationId ≠ "" then
          [(c.deactivationId, r.i)]
        else []
      let consumed := r.i + 1
      let produced : Option Nat :=
        if entryState = true ∨ c.dropInactiveSamples = false then some consumed
        else none
      ⟨r.state, consumed, produced, actLabels ++ deactLabels, none, r.evaluated⟩

/-- Embedding of setForwardMode (lines 175-181).  The C++ setter either
assigns the drop flag and then the stored mode string, or throws
InvalidArgumentException before touching any member; the throw is modelled
by returning the unchanged configuration together with some error
message. -/
def setForwardMode (c : Config) (mode : String) : Config × Option String :=
  if mode = "ALL" then
    ({ c with dropInactiveSamples := false, forwardMode := mode }, none)
  else if mode = "ACTIVE" then
    ({ c with dropInactiveSamples := true, forwardMode := mode }, none)
  else
    (c, some ("EnergyDetector::setForwardMode(" ++ mode ++ "): unknown mode"))

/-- Embedding of getForwardMode (lines 183-186). -/
def getForwardMode (c : Config) : String :=
  c.forwardMode

/-- Iterate step over a list of decision sample magnitudes; this is the
sequence of state-machine evaluations across consecutive work() cycles. -/
def stepRun (c : Config) (s : DetState) : List ℚ → DetState
  | [] => s
  | x :: t => stepRun c (step c s x).1 t

/-- The envelope part of the activation condition evaluated at one decision
sample from state s: the post-increment counter exceeds deactivationMinimum
and the updated signal envelope exceeds the updated noise envelope scaled by
activationFactor (line 389). -/
def envTrigger (c : Config) (s : DetState) (x : ℚ) : Prop :=
  s.samplesInState + 1 > c.deactivationMinimum ∧
    c.signalGain * s.currentSignalEnvelope + (1 - c.signalGain) * x >
      (c.noiseGain * s.currentNoiseEnvelope + (1 - c.noiseGain) * x) * c.activationFactor

instance (c : Config) (s : DetState) (x : ℚ) : Decidable (envTrigger c s x) := by
  unfold envTrigger
  infer_instance

/-- A benign baseline configuration used by the concrete instances below:
units lookahead of one, forwarding all samples, no dwell bounds, no label
ids, gains of one half, activation ratio 2 and deactivation ratio 1/2. -/
def cBase : Config :=
  { dropInactiveSamples := false
    forwardMode := "ALL"
    activationFactor := 2
    deactivationFactor := 1/2
    activationMinimum := 0
    activationMaximum := 0
    deactivationMinimum := 0
    deactivationMaximum := 0
    signalGain := 1/2
    noiseGain := 1/2
    lookahead := 1
    activationId := ""
    deactivationId := "" }


/-- C2: transition conditions of the state machine.  With the counter
already incremented for the evaluated sample and the envelopes updated, the
detector transitions from INACTIVE to ACTIVE iff the counter exceeds
deactivationMinimum and the signal envelope exceeds the noise envelope times
activationFactor, or deactivationMaximum is nonzero and the counter exceeds
it; it transitions from ACTIVE to INACTIVE iff the counter exceeds
activationMinimum and the signal envelope is below the noise envelope times
deactivationFactor, or activationMaximum is nonzero and the counter exceeds
it.  On a transition the counter is reset to 0 and the state flips; on a
non-transition the state is unchanged and the counter keeps the incremented
value. -/
theorem stepTransitionIff (c : Config) (s : DetState) (xn : ℚ) :
    (s.activeState = false →
      ((step c s xn).2 = true ↔
        ((s.samplesInState + 1 > c.deactivationMinimum ∧
            c.signalGain * s.currentSignalEnvelope + (1 - c.signalGain) * xn >
              (c.noiseGain * s.currentNoiseEnvelope + (1 - c.noiseGain) * xn) *
                c.activationFactor) ∨
          (c.deactivationMaximum ≠ 0 ∧
            s.samplesInState + 1 > c.deactivationMaximum)))) ∧
    (s.activeState = true →
      ((step c s xn).2 = true ↔
        ((s.samplesInState + 1 > c.activationMinimum ∧
            c.signalGain * s.currentSignalEnvelope + (1 - c.signalGain) * xn <
              s.currentNoiseEnvelope * c.deactivationFactor) ∨
          (c.activationMaximum ≠ 0 ∧
            s.samplesInState + 1 > c.activationMaximum)))) ∧
    ((step c s xn).2 = true →
      (step c s xn).1.samplesInState = 0 ∧
      (step c s xn).1.activeState = !s.activeState) ∧
    ((step c s xn).2 = false →
      (step c s xn).1.samplesInState = s.samplesInState + 1 ∧
      (step c s xn).1.activeState = s.activeState) := by
  cases h : s.activeState <;>
    simp only [step, h, Bool.false_eq_true, Bool.true_eq_false, if_true, if_false,
      ite_true, ite_false, Bool.not_false, Bool.not_true] <;>
    split <;> simp_all

/-- C2 witness: the instantiated conditions at a concrete configuration,
state and sample. -/
theorem stepTransitionIff_witness :
    ((initState.activeState = false →
      ((step cBase initState 4).2 = true ↔
        ((initState.samplesInState + 1 > cBase.deactivationMinimum ∧
            cBase.signalGain * initState.currentSignalEnvelope +
                (1 - cBase.signalGain) * 4 >
              (cBase.noiseGain * initState.currentNoiseEnvelope +
                  (1 - cBase.noiseGain) * 4) * cBase.activationFactor) ∨
          (cBase.deactivationMaximum ≠ 0 ∧
            initState.samplesInState + 1 > cBase.deactivationMaximum)))) ∧
    (initState.activeState = true →
      ((step cBase initState 4).2 = true ↔
        ((initState.samplesInState + 1 > cBase.activationMinimum ∧
            cBase.signalGain * initState.currentSignalEnvelope +
                (1 - cBase.signalGain) * 4 <
              initState.currentNoiseEnvelope * cBase.deactivationFactor) ∨
          (cBase.activationMaximum ≠ 0 ∧
            initState.samplesInState + 1 > cBase.activationMaximum)))) ∧
    ((step cBase initState 4).2 = true →
      (step cBase initState 4).1.samplesInState = 0 ∧
      (step cBase initState 4).1.activeState = !initState.activeState) ∧
    ((step cBase initState 4).2 = false →
      (step cBase initState 4).1.samplesInState = initState.samplesInState + 1 ∧
      (step cBase initState 4).1.activeState = initState.activeState)) :=
  stepTransitionIff cBase initState 4

/-- C3: envelope updates.  On every evaluated decision sample the signal
envelope becomes signalGain times its old value plus (1 - signalGain) times
the sample magnitude, in both states; the noise envelope is updated the same
way with noiseGain only when the state is INACTIVE, and is unchanged when
the state is ACTIVE. -/
theorem stepEnvelopeUpdate (c : Config) (s : DetState) (xn : ℚ) :
    (step c s xn).1.currentSignalEnvelope =
      c.signalGain * s.currentSignalEnvelope + (1 - c.signalGain) * xn ∧
    (s.activeState = false →
      (step c s xn).1.currentNoiseEnvelope =
        c.noiseGain * s.currentNoiseEnvelope + (1 - c.noiseGain) * xn) ∧
    (s.activeState = true →
      (step c s xn).1.currentNoiseEnvelope = s.currentNoiseEnvelope) := by
  cases h : s.activeState <;>
    simp only [step, h, Bool.false_eq_true, Bool.true_eq_false, if_true, if_false,
      ite_true, ite_false] <;>
    split <;> simp_all

/-- C3 witness: the instantiated envelope updates at a concrete
configuration, state and sample. -/
theorem stepEnvelopeUpdate_witness :
    ((step cBase initState 4).1.currentSignalEnvelope =
      cBase.signalGain * initState.currentSignalEnvelope +
        (1 - cBase.signalGain) * 4 ∧
    (initState.activeState = false →
      (step cBase initState 4).1.currentNoiseEnvelope =
        cBase.noiseGain * initState.currentNoiseEnvelope +
          (1 - cBase.noiseGain) * 4) ∧
    (initState.activeState = true →
      (step cBase initState 4).1.currentNoiseEnvelope =
        initState.currentNoiseEnvelope)) :=
  stepEnvelopeUpdate cBase initState 4

/-- A configuration refuting C6 as stated: the maximum dwell bound is
nonzero and smaller than the minimum dwell bound. -/
def cSixC : Config :=
  { cBase with activationMinimum := 5, activationMaximum := 1 }

/-- A state that has just entered ACTIVE: counter reset to zero. -/
def sSixC : DetState := ⟨true, 0, 0, 0⟩

/-- C6 counterexample: with activationMinimum = 5 and activationMaximum = 1,
from a freshly entered ACTIVE state the second evaluated sample transitions
back to INACTIVE although its counter value 2 is at most activationMinimum,
refuting the claim as stated. -/
theorem minimumDwellCounterexample :
    (step cSixC sSixC 0).1.activeState = true ∧
    (step cSixC sSixC 0).1.samplesInState + 1 ≤ cSixC.activationMinimum ∧
    (step cSixC (step cSixC sSixC 0).1 0).2 = true ∧
    (step cSixC (step cSixC sSixC 0).1 0).1.activeState = false := by
  norm_num [step, cSixC, sSixC]

/-- C6 amended: provided activationMaximum is zero or at least
activationMinimum, no evaluated sample with incremented counter at most
activationMinimum can transition out of ACTIVE, whatever the envelopes and
the sample value. -/
theorem minimumDwellHonored (c : Config) (s : DetState) (xn : ℚ)
    (hmax : c.activationMaximum = 0 ∨ c.activationMinimum ≤ c.activationMaximum)
    (hact : s.activeState = true)
    (hsis : s.samplesInState + 1 ≤ c.activationMinimum) :
    (step c s xn).2 = false ∧ (step c s xn).1.activeState = true := by
  have h1 : ¬ (s.samplesInState + 1 > c.activationMinimum) := by omega
  have h2 : ¬ (c.activationMaximum ≠ 0 ∧ s.samplesInState + 1 > c.activationMaximum) := by
    rcases hmax with h | h
    · simp [h]
    · intro hcon
      omega
  simp only [step, hact, if_true, ite_true]
  split
  · next hc =>
      rcases hc with hc | hc
      · exact absurd hc.1 h1
      · exact absurd hc h2
  · exact ⟨rfl, rfl⟩

/-- C6 amended witness: with activation minimum 3 and no maximum, the first
sample after entering ACTIVE does not transition even at zero magnitude. -/
theorem minimumDwellHonored_witness :
    (step { cBase with activationMinimum := 3 } sSixC 0).2 = false ∧
    (step { cBase with activationMinimum := 3 } sSixC 0).1.activeState = true :=
  minimumDwellHonored { cBase with activationMinimum := 3 } sSixC 0
    (Or.inl rfl) rfl (by norm_num [sSixC, cBase])

/-- C8: starvation.  When at most lookahead input elements are buffered,
work() requests a reservation of exactly lookahead + 1 elements and returns
with nothing consumed, nothing produced, no label posted and the runtime
state unchanged. -/
theorem workStarvationReserve (c : Config) (s : DetState) (inp : Nat → ℚ)
    (elements outElements : Nat) (h : elements ≤ c.lookahead) :
    work c s inp elements outElements =
      ⟨s, 0, none, [], some (c.lookahead + 1), 0⟩ := by
  simp [work, h]

/-- C8 witness: one buffered element against a lookahead of one. -/
theorem workStarvationReserve_witness :
    work cBase initState (fun _ => 0) 1 5 =
      ⟨initState, 0, none, [], some 2, 0⟩ := by
  have h := workStarvationReserve cBase initState (fun _ => 0) 1 5 (by norm_num [cBase])
  simpa [cBase] using h

/-- C9: setForwardMode.  For a mode other than ALL and ACTIVE the setter
reports an invalid-argument error and leaves every stored field unchanged;
for ALL and ACTIVE it succeeds, getForwardMode afterwards returns the set
mode, and the drop-inactive flag is false for ALL and true for ACTIVE. -/
theorem setForwardModeSpec (c : Config) (mode : String) :
    (mode ≠ "ALL" → mode ≠ "ACTIVE" →
      (setForwardMode c mode).1 = c ∧ (setForwardMode c mode).2.isSome = true) ∧
    (setForwardMode c "ALL").2 = none ∧
    (setForwardMode c "ACTIVE").2 = none ∧
    getForwardMode (setForwardMode c "ALL").1 = "ALL" ∧
    getForwardMode (setForwardMode c "ACTIVE").1 = "ACTIVE" ∧
    (setForwardMode c "ALL").1.dropInactiveSamples = false ∧
    (setForwardMode c "ACTIVE").1.dropInactiveSamples = true := by
  refine ⟨fun h1 h2 => ?_, ?_, ?_, ?_, ?_, ?_, ?_⟩ <;>
    simp_all [setForwardMode, getForwardMode]

/-- C9 witness: the instantiated setter behaviour at the mode string OFF. -/
theorem setForwardModeSpec_witness :
    (("OFF" ≠ "ALL" → "OFF" ≠ "ACTIVE" →
      (setForwardMode cBase "OFF").1 = cBase ∧
        (setForwardMode cBase "OFF").2.isSome = true) ∧
    (setForwardMode cBase "ALL").2 = none ∧
    (setForwardMode cBase "ACTIVE").2 = none ∧
    getForwardMode (setForwardMode cBase "ALL").1 = "ALL" ∧
    getForwardMode (setForwardMode cBase "ACTIVE").1 = "ACTIVE" ∧
    (setForwardMode cBase "ALL").1.dropInactiveSamples = false ∧
    (setForwardMode cBase "ACTIVE").1.dropInactiveSamples = true) :=
  setForwardModeSpec cBase "OFF"

/-- C10: zero output space.  When more than lookahead input elements are
buffered but no output space is available, work() returns as a complete
no-op: nothing consumed, nothing produced, no label, no reservation, state
unchanged. -/
theorem workZeroOutputNoop (c : Config) (s : DetState) (inp : Nat → ℚ)
    (elements : Nat) (h : c.lookahead < elements) :
    work c s inp elements 0 = ⟨s, 0, none, [], none, 0⟩ := by
  have h2 : ¬ (elements ≤ c.lookahead) := by omega
  simp [work, h2]

/-- C10 witness: two buffered elements, lookahead one, no output space. -/
theorem workZeroOutputNoop_witness :
    work cBase initState (fun _ => 0) 2 0 =
      ⟨initState, 0, none, [], none, 0⟩ :=
  workZeroOutputNoop cBase initState (fun _ => 0) 2 (by norm_num [cBase])


/-- C4: forwarding policy.  In a progressing cycle, when inactive samples
are not dropped (forward mode ALL) the posted buffer length equals the
consumed length; when they are dropped (forward mode ACTIVE) the consumed
span is posted with its full length iff the entry state was ACTIVE, and
nothing is posted otherwise. -/
theorem workForwardModeLength (c : Config) (s : DetState) (inp : Nat → ℚ)
    (elements outElements : Nat)
    (hin : c.lookahead < elements) (hout : outElements ≠ 0) :
    (c.dropInactiveSamples = false →
      (work c s inp elements outElements).produced =
        some (work c s inp elements outElements).consumed) ∧
    (c.dropInactiveSamples = true → s.activeState = true →
      (work c s inp elements outElements).produced =
        some (work c s inp elements outElements).consumed) ∧
    (c.dropInactiveSamples = true → s.activeState = false →
      (work c s inp elements outElements).produced = none) := by
  have h2 : ¬ (elements ≤ c.lookahead) := by omega
  have hN : ¬ (min (elements - c.lookahead) outElements = 0) := by omega
  refine ⟨fun hd => ?_, fun hd ha => ?_, fun hd ha => ?_⟩ <;>
    simp [work, h2, hN, *]

/-- C4 witness: the instantiated forwarding policy in a progressing cycle
with forward mode ALL. -/
theorem workForwardModeLength_witness :
    ((cBase.dropInactiveSamples = false →
      (work cBase initState (fun _ => 0) 2 1).produced =
        some (work cBase initState (fun _ => 0) 2 1).consumed) ∧
    (cBase.dropInactiveSamples = true → initState.activeState = true →
      (work cBase initState (fun _ => 0) 2 1).produced =
        some (work cBase initState (fun _ => 0) 2 1).consumed) ∧
    (cBase.dropInactiveSamples = true → initState.activeState = false →
      (work cBase initState (fun _ => 0) 2 1).produced = none)) :=
  workForwardModeLength cBase initState (fun _ => 0) 2 1
    (by norm_num [cBase]) (by norm_num)

/-- C1: off-by-one between consumption and evaluation.  With lookahead 1,
two buffered input elements and one output element the work size N is 1 and
the all-zero input triggers no transition, so the loop exhausts with its
counter equal to N; the cycle evaluates exactly one decision sample but
consumes i + 1 = 2 input elements, so the consumed count exceeds the
evaluated count and the decision sample of the second consumed position is
never evaluated. -/
theorem consumeEvaluateOffByOne :
    (work cBase initState (fun _ => 0) 2 1).evaluated = 1 ∧
    (work cBase initState (fun _ => 0) 2 1).consumed = 2 := by
  norm_num [work, runLoop, step, cBase, initState]

/-- A configuration refuting C5 as stated: a nonzero deactivationMaximum
forces activation on any input, also all-zero input. -/
def cFiveC : Config :=
  { cBase with deactivationMaximum := 1, lookahead := 0, activationId := "act" }

/-- C5 counterexample: with deactivationMaximum = 1 the second evaluated
all-zero decision sample forces a transition to ACTIVE from the initial
state, and the following cycle posts the activation label, refuting the
claim as stated. -/
theorem allZeroActivationCounterexample :
    (work cFiveC initState (fun _ => 0) 3 2).state.activeState = true ∧
    (work cFiveC (work cFiveC initState (fun _ => 0) 3 2).state
        (fun _ => 0) 3 2).labels = [("act", 0)] := by
  have hne : ("act" : String) ≠ "" := by decide
  norm_num [work, runLoop, step, cFiveC, cBase, initState, hne]

/-- Helper: while INACTIVE on an all-zero stream with deactivationMaximum
zero, one step keeps the state inactive with zero envelopes and only
increments the counter. -/
lemma step_zero_inactive (c : Config) (s : DetState)
    (hdm : c.deactivationMaximum = 0) (hact : s.activeState = false)
    (hsig : s.currentSignalEnvelope = 0) (hnoi : s.currentNoiseEnvelope = 0) :
    step c s 0 = (⟨false, s.samplesInState + 1, 0, 0⟩, false) := by
  simp only [step, hact, Bool.false_eq_true, if_false, ite_false]
  rw [if_neg]
  · simp [hsig, hnoi]
  · rintro (⟨h1, h2⟩ | ⟨h1, h2⟩)
    · rw [hsig, hnoi] at h2
      simp at h2
    · exact h1 hdm

/-- Helper: the scanning loop on an all-zero stream from an inactive state
with zero envelopes and deactivationMaximum zero never transitions and keeps
the state inactive with zero envelopes. -/
lemma runLoop_zero_inactive (c : Config) (inp : Nat → ℚ)
    (hz : ∀ k, inp k = 0) (hdm : c.deactivationMaximum = 0) :
    ∀ (rem i : Nat) (s : DetState), s.activeState = false →
      s.currentSignalEnvelope = 0 → s.currentNoiseEnvelope = 0 →
      (runLoop c inp s i rem).state.activeState = false ∧
      (runLoop c inp s i rem).state.currentSignalEnvelope = 0 ∧
      (runLoop c inp s i rem).state.currentNoiseEnvelope = 0 ∧
      (runLoop c inp s i rem).trans = false := by
  intro rem
  induction rem with
  | zero => intro i s h1 h2 h3; simp [runLoop, h1, h2, h3]
  | succ n ih =>
    intro i s h1 h2 h3
    have habs : abs (inp (i + c.lookahead)) = 0 := by rw [hz]; simp
    have hstep := step_zero_inactive c s hdm h1 h2 h3
    simp only [runLoop, habs, hstep]
    exact ih (i + 1) ⟨false, s.samplesInState + 1, 0, 0⟩ rfl rfl rfl

/-- C5 amended: provided deactivationMaximum = 0, any work() call on an
all-zero input stream from an inactive state with zero envelopes leaves the
state inactive with zero envelopes and posts no label; in particular,
starting from the initial state, the state remains INACTIVE after every
evaluated sample of every cycle and no activation label is ever emitted. -/
theorem workAllZeroStaysInactive (c : Config) (s : DetState) (inp : Nat → ℚ)
    (elements outElements : Nat) (hdm : c.deactivationMaximum = 0)
    (hact : s.activeState = false) (hsig : s.currentSignalEnvelope = 0)
    (hnoi : s.currentNoiseEnvelope = 0) (hz : ∀ k, inp k = 0) :
    (work c s inp elements outElements).state.activeState = false ∧
    (work c s inp elements outElements).state.currentSignalEnvelope = 0 ∧
    (work c s inp elements outElements).state.currentNoiseEnvelope = 0 ∧
    (work c s inp elements outElements).labels = [] := by
  by_cases h1 : elements ≤ c.lookahead
  · simp [work, h1, hact, hsig, hnoi]
  · by_cases h2 : min (elements - c.lookahead) outElements = 0
    · simp [work, h1, h2, hact, hsig, hnoi]
    · have hr := runLoop_zero_inactive c inp hz hdm
        (min (elements - c.lookahead) outElements) 0 s hact hsig hnoi
      refine ⟨?_, ?_, ?_, ?_⟩ <;>
        simp [work, h1, h2, hact, hr.1, hr.2.1, hr.2.2.1, hr.2.2.2]

/-- C5 amended witness: three buffered zero elements against lookahead one
with two output elements from the initial state. -/
theorem workAllZeroStaysInactive_witness :
    (work cBase initState (fun _ => 0) 3 2).state.activeState = false ∧
    (work cBase initState (fun _ => 0) 3 2).state.currentSignalEnvelope = 0 ∧
    (work cBase initState (fun _ => 0) 3 2).state.currentNoiseEnvelope = 0 ∧
    (work cBase initState (fun _ => 0) 3 2).labels = [] :=
  workAllZeroStaysInactive cBase initState (fun _ => 0) 3 2
    rfl rfl rfl rfl (fun _ => rfl)

/-- Helper: while INACTIVE, a decision sample whose envelope condition does
not hold and whose incremented counter is at most deactivationMaximum does
not transition: it increments the counter and updates both envelopes. -/
lemma step_inactive_noTransition (c : Config) (s : DetState) (x : ℚ)
    (hact : s.activeState = false)
    (henv : ¬ envTrigger c s x)
    (hdm : s.samplesInState + 1 ≤ c.deactivationMaximum) :
    step c s x =
      (⟨false, s.samplesInState + 1,
        c.signalGain * s.currentSignalEnvelope + (1 - c.signalGain) * x,
        c.noiseGain * s.currentNoiseEnvelope + (1 - c.noiseGain) * x⟩, false) := by
  unfold envTrigger at henv
  simp only [step, hact, Bool.false_eq_true, if_false, ite_false]
  rw [if_neg]
  rintro (h | ⟨h1, h2⟩)
  · exact henv h
  · omega

/-- Helper: from an inactive state, as long as the cumulative count stays at
most deactivationMaximum and the envelope condition never fires, the
iterated state machine stays inactive and the counter advances by the number
of evaluated samples. -/
lemma stepRun_noTrigger_inactive (c : Config) :
    ∀ (xs : List ℚ) (s : DetState), s.activeState = false →
      s.samplesInState + xs.length ≤ c.deactivationMaximum →
      (∀ k, k < xs.length →
        ¬ envTrigger c (stepRun c s (List.take k xs)) (xs.getD k 0)) →
      (stepRun c s xs).activeState = false ∧
      (stepRun c s xs).samplesInState = s.samplesInState + xs.length := by
  intro xs
  induction xs with
  | nil => intro s h1 _ _; simp [stepRun, h1]
  | cons x t ih =>
    intro s hact hlen htr
    have h0 : ¬ envTrigger c s x := by
      have h := htr 0 (by simp)
      simpa [stepRun] using h
    have hlen1 : s.samplesInState + 1 ≤ c.deactivationMaximum := by
      simp only [List.length_cons] at hlen
      omega
    have hstep := step_inactive_noTransition c s x hact h0 hlen1
    have htr2 : ∀ k, k < t.length →
        ¬ envTrigger c (stepRun c ⟨false, s.samplesInState + 1,
            c.signalGain * s.currentSignalEnvelope + (1 - c.signalGain) * x,
            c.noiseGain * s.currentNoiseEnvelope + (1 - c.noiseGain) * x⟩
          (List.take k t)) (t.getD k 0) := by
      intro k hk
      have h := htr (k + 1) (by simp; omega)
      rw [List.take_succ_cons, List.getD_cons_succ] at h
      simpa [stepRun, hstep] using h
    obtain ⟨ha, hb⟩ := ih ⟨false, s.samplesInState + 1,
        c.signalGain * s.currentSignalEnvelope + (1 - c.signalGain) * x,
        c.noiseGain * s.currentNoiseEnvelope + (1 - c.noiseGain) * x⟩
      rfl (by
        simp only [List.length_cons] at hlen
        show s.samplesInState + 1 + t.length ≤ c.deactivationMaximum
        omega) htr2
    constructor
    · simpa [stepRun, hstep] using ha
    · rw [show stepRun c s (x :: t) = stepRun c (step c s x).1 t from rfl, hstep]
      simp only at hb
      rw [hb]
      simp [List.length_cons]
      omega

/-- C7: forced activation.  If deactivationMaximum = M is nonzero, the
detector starts a dwell in INACTIVE with counter zero, and the envelope
condition fails at each of the first M evaluated decision samples, then no
transition occurs during those M samples, and the next evaluated sample (the
one with incremented counter M + 1) transitions to ACTIVE whatever its value
and whatever the envelopes, resetting the counter. -/
theorem forcedActivationExact (c : Config) (s : DetState) (xs : List ℚ) (x : ℚ)
    (hM : c.deactivationMaximum ≠ 0)
    (hact : s.activeState = false) (hsis : s.samplesInState = 0)
    (hlen : xs.length = c.deactivationMaximum)
    (htr : ∀ k, k < xs.length →
      ¬ envTrigger c (stepRun c s (List.take k xs)) (xs.getD k 0)) :
    (stepRun c s xs).activeState = false ∧
    (stepRun c s xs).samplesInState = c.deactivationMaximum ∧
    (step c (stepRun c s xs) x).2 = true ∧
    (step c (stepRun c s xs) x).1.activeState = true ∧
    (step c (stepRun c s xs) x).1.samplesInState = 0 := by
  obtain ⟨ha, hb⟩ := stepRun_noTrigger_inactive c xs s hact (by omega) htr
  have hb2 : (stepRun c s xs).samplesInState = c.deactivationMaximum := by omega
  have hcond : ((stepRun c s xs).samplesInState + 1 > c.deactivationMinimum ∧
      c.signalGain * (stepRun c s xs).currentSignalEnvelope +
          (1 - c.signalGain) * x >
        (c.noiseGain * (stepRun c s xs).currentNoiseEnvelope +
            (1 - c.noiseGain) * x) * c.activationFactor) ∨
      (c.deactivationMaximum ≠ 0 ∧
        (stepRun c s xs).samplesInState + 1 > c.deactivationMaximum) :=
    Or.inr ⟨hM, by omega⟩
  refine ⟨ha, hb2, ?_, ?_, ?_⟩ <;>
    simp only [step, ha, Bool.false_eq_true, if_false, ite_false, if_pos hcond]

/-- Configuration for the C7 witness: forced activation after two inactive
samples. -/
def cSevenW : Config :=
  { cBase with deactivationMaximum := 2, lookahead := 0 }

/-- C7 witness: two all-zero samples dwell in INACTIVE, then the third
sample (of value 5) forces the transition to ACTIVE. -/
theorem forcedActivationExact_witness :
    (stepRun cSevenW initState [0, 0]).activeState = false ∧
    (stepRun cSevenW initState [0, 0]).samplesInState =
      cSevenW.deactivationMaximum ∧
    (step cSevenW (stepRun cSevenW initState [0, 0]) 5).2 = true ∧
    (step cSevenW (stepRun cSevenW initState [0, 0]) 5).1.activeState = true ∧
    (step cSevenW (stepRun cSevenW initState [0, 0]) 5).1.samplesInState = 0 :=
  forcedActivationExact cSevenW initState [0, 0] 5
    (by norm_num [cSevenW, cBase]) rfl rfl (by norm_num [cSevenW, cBase])
    (by
      intro k hk
      simp only [List.length_cons, List.length_nil] at hk
      have hk2 : k = 0 ∨ k = 1 := by omega
      rcases hk2 with h | h <;> subst h <;>
        norm_num [envTrigger, stepRun, step, cSevenW, cBase, initState])

end EnergyDetector
